import Mathlib

/-!
Verification development for the dual-launcher profile supervision engine.

The definitions below are a shallow embedding of the Python sources:
  * `gui_launcher_simple.py` — the "simple" cross-platform launcher
    (load/save of `launch.conf`, connectivity waiting, per-profile start/stop,
    the Start All / group-start sequencer, the crash monitor, and the
    redis-driven group reconciler);
  * `gui_launcher_profiles.py` — the window-moving variant whose start path
    delegates connectivity waiting to `launcher.py`;
  * `launcher.py` — the legacy engine providing `_can_reach` and
    `wait_for_connectivity`.

Machine-level conventions of the embedding:
  * Python dicts become association lists (`List (String × _)`);
    lookups use the first matching key, which agrees with Python dicts
    because JSON decoding never produces duplicate keys.
  * Wall-clock time is modelled with rationals; `time.sleep(s)` advances the
    model clock by exactly `s`, and probes are instantaneous.
  * External effects (reachability probes, process spawning, redis lookups,
    cancellation events) are supplied as explicit oracles.
  * Unbounded loops (the `while True` loop of the legacy waiter) take a fuel argument
    and return `none` when the fuel is exhausted, i.e. when the loop is still
    running at that depth.
-/

namespace DualLauncher

/-- A recorded `subprocess.Popen` handle: `alive` models `poll() is None`
at the moment the engine observes the handle. -/
structure Handle where
  hid : Nat
  alive : Bool
deriving DecidableEq, Repr

/-- A normalized profile record, with exactly the fields and types that
`load_profiles` in `gui_launcher_simple.py` guarantees. -/
structure Profile where
  name : String
  group : String
  order : Int
  path : String
  args : String
  autoStart : Bool
  autoRestart : Bool
  waitTarget : String
  waitTimeout : Int
  waitInterval : Int
  postLaunchDelay : Int
deriving DecidableEq, Repr

/-- Python `str.strip()` with no argument: drop leading and trailing
whitespace (implemented over the character list so that it evaluates inside
the kernel). -/
def pyStrip (s : String) : String :=
  ⟨((s.data.dropWhile Char.isWhitespace).reverse.dropWhile Char.isWhitespace).reverse⟩

/-- `m[k] = v` on a Python-dict-as-association-list: replace the first
binding of `k`, or append a fresh binding. -/
def lset {α : Type} (k : String) (v : α) : List (String × α) → List (String × α)
  | [] => [(k, v)]
  | (k2, v2) :: rest => if k2 = k then (k, v) :: rest else (k2, v2) :: lset k v rest

/-- `existing and existing.poll() is None`: the registry holds a live handle. -/
def aliveHandle (procs : List (String × Handle)) (name : String) : Bool :=
  match procs.lookup name with
  | some h => h.alive
  | none => false

theorem lookup_lset_self {α : Type} (k : String) (v : α) (m : List (String × α)) :
    (lset k v m).lookup k = some v := by
  induction m with
  | nil => simp [lset]
  | cons hd tl ih =>
    obtain ⟨k2, v2⟩ := hd
    by_cases h : k2 = k
    · simp [lset, h]
    · have hb : (k == k2) = false := beq_eq_false_iff_ne.mpr (Ne.symm h)
      simp [lset, h, List.lookup, hb, ih]

theorem lookup_lset_ne {α : Type} {k k2 : String} (h : k2 ≠ k) (v : α)
    (m : List (String × α)) : (lset k v m).lookup k2 = m.lookup k2 := by
  have hb : (k2 == k) = false := beq_eq_false_iff_ne.mpr h
  induction m with
  | nil => simp [lset, List.lookup, hb]
  | cons hd tl ih =>
    obtain ⟨k3, v3⟩ := hd
    by_cases h3 : k3 = k
    · subst h3
      simp [lset, List.lookup, hb]
    · by_cases h2 : k2 = k3
      · subst h2
        simp [lset, h3, List.lookup, ih]
      · have hb2 : (k2 == k3) = false := beq_eq_false_iff_ne.mpr h2
        simp [lset, h3, List.lookup, hb2, ih]

/-! ## Connectivity waiting (`gui_launcher_simple.py`)

`wait_for_connectivity(target, total_timeout, interval)`:

    if not target or total_timeout <= 0:
        return True  # Nothing to wait for
    deadline = time.time() + total_timeout
    while time.time() < deadline:
        if can_reach(target):
            return True
        time.sleep(max(0.2, interval))
    return can_reach(target)

The probe oracle gives the outcome of the k-th `can_reach` call.  Under the
timing model the k-th loop iteration happens at `k * max(0.2, interval)`
seconds, so the loop runs `⌈total_timeout / step⌉` times and then performs a
final probe.  The result pairs the returned boolean with the number of probes
performed. -/

/-- Number of iterations of the `while` loop of the simple waiter,
`⌈total_timeout / max(0.2, interval)⌉` for the positive timeout this is
called with: an integral `interval ≤ 0` is floored to the 0.2-second step
(so five probes per second), otherwise the step is `interval` itself and
the ceiling becomes integer ceiling division. -/
def wfcIters (total_timeout interval : Int) : Nat :=
  if interval ≤ 0 then (5 * total_timeout).toNat
  else ((total_timeout + interval - 1) / interval).toNat

/-- The probe loop of the simple waiter: probe indices count up, the fuel counts
remaining in-deadline iterations; the last probe is the one performed after
the deadline has passed. -/
def wfcLoop (probe : Nat → Bool) : Nat → Nat → Bool × Nat
  | k, 0 => (probe k, k + 1)
  | k, n + 1 => if probe k then (true, k + 1) else wfcLoop probe (k + 1) n

/-- `wait_for_connectivity` from `gui_launcher_simple.py`; returns the result
together with the number of reachability probes performed. -/
def wait_for_connectivity_simple (target : String) (total_timeout interval : Int)
    (probe : Nat → Bool) : Bool × Nat :=
  if target = "" ∨ total_timeout ≤ 0 then (true, 0)
  else wfcLoop probe 0 (wfcIters total_timeout interval)

/-! ## Connectivity waiting (`launcher.py`)

`wait_for_connectivity(ping_target, total_timeout, interval, cancel_event)`:

    start = time.time()
    attempt = 0
    while True:
        if cancel_event is not None and cancel_event.is_set():
            return False
        attempt += 1
        if _can_reach(ping_target):
            return True
        if total_timeout and (time.time() - start) >= total_timeout:
            return False
        time.sleep(interval)

Note `if total_timeout` is Python truthiness: a zero timeout disables the
deadline entirely, so the loop keeps probing.  The fuel bounds how many
iterations we unfold; `none` means the loop is still running. -/

def wfcLauncherAux (probe : Nat → Bool) (cancel : Nat → Bool)
    (total_timeout interval : ℚ) : Nat → ℚ → Nat → Option (Bool × Nat)
  | 0, _, _ => none
  | fuel + 1, elapsed, attempt =>
    if cancel attempt then some (false, attempt)
    else if probe attempt then some (true, attempt + 1)
    else if total_timeout ≠ 0 ∧ total_timeout ≤ elapsed then some (false, attempt + 1)
    else wfcLauncherAux probe cancel total_timeout interval fuel (elapsed + interval) (attempt + 1)

/-- `wait_for_connectivity` from `launcher.py`, fuel-bounded; the second
component counts reachability probes performed. -/
def wfcLauncher (probe : Nat → Bool) (total_timeout interval : ℚ)
    (cancel : Nat → Bool) (fuel : Nat) : Option (Bool × Nat) :=
  wfcLauncherAux probe cancel total_timeout interval fuel 0 0

/-! ## HTTP reachability probing

`gui_launcher_simple.py`:

    def _can_reach_http(url, timeout=3.0):
        try:
            req = urllib.request.Request(url, method="HEAD")
            with urllib.request.urlopen(req, timeout=timeout) as resp:
                return 200 <= resp.status < 400
        except urllib.error.HTTPError as e:
            return 200 <= getattr(e, "code", 0) < 500
        except Exception:
            return False

`launcher.py` `_can_reach`, http/https branch:

    if parsed.scheme in ("http", "https"):
        host = parsed.hostname
        if not host:
            return False
        port = parsed.port or (443 if parsed.scheme == "https" else 80)
        try:
            with socket.create_connection((host, port), timeout=2):
                return True
        except OSError:
            return False

The outcome of one `urlopen` HEAD call is abstracted: either a transport
error (including timeouts), a response object returned to the caller, or an
`HTTPError` carrying a status code. -/

inductive HttpOutcome where
  | transportErr
  | response (status : Nat)
  | httpError (code : Nat)
deriving DecidableEq, Repr

/-- `_can_reach_http` from `gui_launcher_simple.py` as a function of the
`urlopen` outcome. -/
def canReachHttpSimple : HttpOutcome → Bool
  | .transportErr => false
  | .response s => decide (200 ≤ s ∧ s < 400)
  | .httpError c => decide (200 ≤ c ∧ c < 500)

/-- The outcomes `urllib.request.urlopen` can actually deliver for a HEAD
request (modelled from urllib semantics, which are outside this repository):
responses handed back to the caller are successes or resolved redirects with
a status in [200, 400); every status from 300 up may instead surface as an
`HTTPError`, and codes below 300 are never raised as `HTTPError`. -/
def UrllibDelivered : HttpOutcome → Prop
  | .transportErr => True
  | .response s => 200 ≤ s ∧ s < 400
  | .httpError c => 300 ≤ c

/-- State of the service behind an http(s) target: whether a raw TCP connect
to its host/port succeeds, and what an actual HTTP HEAD request would yield. -/
structure HttpServiceState where
  tcpAccepts : Bool
  http : HttpOutcome
deriving DecidableEq, Repr

/-- The http/https branch of `_can_reach` in `launcher.py`: a plain TCP
connect to the parsed host and port; the HTTP exchange never happens. -/
def canReachHttpLauncher (hostPresent : Bool) (s : HttpServiceState) : Bool :=
  if !hostPresent then false else s.tcpAccepts

/-- Modelled from the spec: the reachability criterion the spec states for
http(s) targets — "any response status below 500 counts as reachable", and a
transport error is unreachable.  Used only to compare the code against the
words of the spec. -/
def specReachableBelow500 : HttpOutcome → Bool
  | .transportErr => false
  | .response s => decide (s < 500)
  | .httpError c => decide (c < 500)

/-! ## Per-profile start (`gui_launcher_simple.py`, `_start_profile`)

The GUI-side registry of `SimpleLauncherApp`: `self.processes`,
`self.status_map`, `self.conn_status`, `self._user_stop_flags`,
`self._launching`, plus the status bar text.  The launch thread (`runner`)
is modelled sequentially: the function returns the state after the runner
has finished. -/

structure LState where
  processes : List (String × Handle)
  statusMap : List (String × String)
  connStatus : List (String × String)
  userStop : List (String × Bool)
  launching : List String
  statusBar : String
deriving DecidableEq, Repr

structure StartResult where
  state : LState
  spawned : Bool
  probes : Nat
deriving DecidableEq, Repr

/-- The spawn-and-record tail of `runner`: `subprocess.Popen` succeeds
(`spawn = some h`) or raises (`spawn = none`). -/
def spawnStep (st : LState) (name : String) (spawn : Option Handle)
    (probes : Nat) : StartResult :=
  match spawn with
  | some h =>
    ⟨{ st with
        processes := lset name h st.processes
        statusMap := lset name "Running" st.statusMap
        statusBar := "Started: " ++ name
        launching := st.launching.erase name }, true, probes⟩
  | none =>
    ⟨{ st with
        statusMap := lset name "Stopped" st.statusMap
        statusBar := "Launch failed: " ++ name
        launching := st.launching.erase name }, false, probes⟩

/-- `SimpleLauncherApp._start_profile` with its `runner` thread run to
completion.  `probe` is the reachability oracle consumed by
`wait_for_connectivity`, `spawn` the outcome of `subprocess.Popen`. -/
def startProfileSimple (st : LState) (prof : Profile) (probe : Nat → Bool)
    (spawn : Option Handle) : StartResult :=
  let name := prof.name
  let path := pyStrip prof.path
  let wt := pyStrip prof.waitTarget
  if path = "" then
    ⟨{ st with statusBar := "No executable path: " ++ name }, false, 0⟩
  else if aliveHandle st.processes name then
    ⟨st, false, 0⟩
  else if st.launching.contains name then
    ⟨st, false, 0⟩
  else
    let st1 : LState :=
      { st with
          launching := name :: st.launching
          statusMap := lset name "Starting" st.statusMap
          userStop := lset name false st.userStop }
    if wt ≠ "" then
      let st2 : LState := { st1 with connStatus := lset name "Waiting..." st1.connStatus }
      let r := wait_for_connectivity_simple wt prof.waitTimeout prof.waitInterval probe
      let st3 : LState :=
        { st2 with connStatus := lset name (if r.1 then "Online" else "Offline") st2.connStatus }
      if r.1 then
        spawnStep st3 name spawn r.2
      else
        ⟨{ st3 with
            statusBar := "Connectivity failed/timeout: " ++ wt
            statusMap := lset name "Stopped" st3.statusMap
            launching := st3.launching.erase name }, false, r.2⟩
    else
      spawnStep st1 name spawn 0

/-! ## Per-profile start (`gui_launcher_profiles.py`, `_start_profile`)

This variant has no per-profile status map; it tracks `processes`,
`conn_status`, `_user_stop_flags` and `_launching`, and its runner calls
`launcher.wait_for_connectivity` (the fuel-bounded waiter above).  The
window-moving collaborator is recorded as the `movedWindow` flag; the
profile fields it consumes (`monitor`, `kind`, `value`) only parameterize
that excluded side effect. -/

structure PState where
  processes : List (String × Handle)
  connStatus : List (String × String)
  userStop : List (String × Bool)
  launching : List String
  statusBar : String
deriving DecidableEq, Repr

structure PStartResult where
  state : PState
  spawned : Bool
  movedWindow : Bool
deriving DecidableEq, Repr

/-- Tail of the profiles-variant runner after any connectivity wait:
spawn if a path is configured, then kick the window move. -/
def pSpawnStep (st : PState) (name path : String) (spawn : Option Handle) : PStartResult :=
  if path ≠ "" then
    match spawn with
    | some h =>
      ⟨{ st with
          processes := lset name h st.processes
          statusBar := "Window move complete: " ++ name
          launching := st.launching.erase name }, true, true⟩
    | none =>
      ⟨{ st with
          statusBar := "Launch failed: " ++ name
          launching := st.launching.erase name }, false, false⟩
  else
    ⟨{ st with
        statusBar := "Window move complete: " ++ name
        launching := st.launching.erase name }, false, true⟩

/-- `ProfilesApp._start_profile` with its runner run to completion; `none`
means the runner is still inside `launcher.wait_for_connectivity` after
`fuel` loop iterations (with a zero `waitTimeout` that loop has no
deadline). -/
def startProfileProfiles (st : PState) (prof : Profile) (probe : Nat → Bool)
    (cancel : Nat → Bool) (fuel : Nat) (spawn : Option Handle) : Option PStartResult :=
  let name := prof.name
  if aliveHandle st.processes name then
    some ⟨st, false, true⟩
  else if st.launching.contains name then
    some ⟨st, false, false⟩
  else
    let path := pyStrip prof.path
    let wt := pyStrip prof.waitTarget
    let st1 : PState :=
      { st with
          launching := name :: st.launching
          userStop := lset name false st.userStop }
    if wt ≠ "" then
      let st2 : PState :=
        { st1 with
            connStatus := lset name "Waiting..." st1.connStatus
            statusBar := "Waiting for connectivity: " ++ wt ++ " ..." }
      match wfcLauncher probe (prof.waitTimeout : ℚ) (prof.waitInterval : ℚ) cancel fuel with
      | none => none
      | some (false, _) =>
        some ⟨{ st2 with
            statusBar := "Connectivity failed/timeout: " ++ wt
            connStatus := lset name "Offline" st2.connStatus
            launching := st2.launching.erase name }, false, false⟩
      | some (true, _) =>
        pSpawnStep { st2 with connStatus := lset name "Online" st2.connStatus } name path spawn
    else
      pSpawnStep st1 name path spawn

/-! ## The launch sequencer (`on_start_all`, `_start_groups`,
`_auto_start_profiles` in `gui_launcher_simple.py`)

All three workers share one loop body:

    profs.sort(key=lambda p: (p.get("group",""), int(p.get("order",0) or 0), p.get("name","")))
    for idx, prof in enumerate(profs):
        self._start_profile(prof)
        timeout = max(10, int(prof.get("waitTimeout", 0) or 0) + 10)
        ... wait until name not in self._launching or deadline ...
        if (prof.get("group", "").strip() and int(prof.get("postLaunchDelay", 0) or 0) > 0):
            delay = ...
            ... sleep delay (interruptible) ...

The trace of sequencing events it emits is captured per profile: a start,
the bounded in-flight wait, then — whenever the group is non-empty and the
delay positive — the post-launch sleep.  The Python `sort` is stable; the
stable insertion sort below computes the identical permutation for the
strict lexicographic key `(group, order, name)`. -/

inductive SeqEvent where
  | start (name : String)
  | waitClear (name : String) (bound : Int)
  | sleep (secs : Int)
deriving DecidableEq, Repr

/-- Strict lexicographic comparison on the Python sort key
`(group, order, name)`. -/
def profLT (p q : Profile) : Bool :=
  if p.group ≠ q.group then decide (p.group < q.group)
  else if p.order ≠ q.order then decide (p.order < q.order)
  else decide (p.name < q.name)

/-- Stable insertion: `x` goes in front of the first element not strictly
below it, preserving the original order of equal keys. -/
def insertProf (x : Profile) : List Profile → List Profile
  | [] => [x]
  | y :: ys => if profLT y x then y :: insertProf x ys else x :: y :: ys

/-- The stable sort by `(group, order, name)` used by every sequencer
worker. -/
def sortProfs : List Profile → List Profile
  | [] => []
  | x :: xs => insertProf x (sortProfs xs)

/-- The sequencer loop body, over the already-sorted list. -/
def startAllWorker : List Profile → List SeqEvent
  | [] => []
  | p :: rest =>
    SeqEvent.start p.name ::
    SeqEvent.waitClear p.name (max 10 (p.waitTimeout + 10)) ::
    (if pyStrip p.group ≠ "" ∧ 0 < p.postLaunchDelay then
      SeqEvent.sleep p.postLaunchDelay :: startAllWorker rest
    else
      startAllWorker rest)

/-- The event trace of one `startMany` sequence (Start All, group start and
auto-start all run this). -/
def startManyTrace (profs : List Profile) : List SeqEvent :=
  startAllWorker (sortProfs profs)

/-! ## Crash monitor (`_proc_monitor`)

One per-profile check of a monitor cycle, as the cascade of `continue`
guards in the source; returns whether `_start_profile` is invoked and the
(possibly updated) `_last_restart` entry.  Times are rational seconds. -/

structure MonState where
  inFlight : Bool
  userStopped : Bool
  handle : Option Handle
  lastRestart : ℚ
deriving DecidableEq, Repr

/-- `SimpleLauncherApp._proc_monitor`, body of the per-profile loop. -/
def procMonitorCheckSimple (autoRestart : Bool) (s : MonState) (now : ℚ) : Bool × ℚ :=
  if !autoRestart then (false, s.lastRestart)
  else if s.inFlight then (false, s.lastRestart)
  else if s.userStopped then (false, s.lastRestart)
  else
    match s.handle with
    | none => (false, s.lastRestart)
    | some p =>
      if p.alive then (false, s.lastRestart)
      else if now - s.lastRestart < 3 then (false, s.lastRestart)
      else (true, now)

/-- `ProfilesApp._proc_monitor`, body of the per-profile loop; this variant
additionally skips profiles without an executable path. -/
def procMonitorCheckProfiles (autoRestart : Bool) (path : String) (s : MonState)
    (now : ℚ) : Bool × ℚ :=
  if !autoRestart then (false, s.lastRestart)
  else if pyStrip path = "" then (false, s.lastRestart)
  else if s.inFlight then (false, s.lastRestart)
  else if s.userStopped then (false, s.lastRestart)
  else
    match s.handle with
    | none => (false, s.lastRestart)
    | some p =>
      if p.alive then (false, s.lastRestart)
      else if now - s.lastRestart < 3 then (false, s.lastRestart)
      else (true, now)

/-- Successive monitor cycles at the given times for one profile whose
recorded handle stays `h` and whose other flags stay clear (the repeatedly
crashing profile of the scenario in the spec); returns the times at which a
restart is issued. -/
def monitorRunSimple (h : Handle) (last : ℚ) : List ℚ → List ℚ
  | [] => []
  | t :: ts =>
    let r := procMonitorCheckSimple true ⟨false, false, some h, last⟩ t
    if r.1 then t :: monitorRunSimple h r.2 ts else monitorRunSimple h r.2 ts

/-! ## External trigger reconciler (`_redis_monitor`)

Per-group body of one reconciler cycle.  The redis client is an oracle from
lookups to either a value (`ok`) or a raised exception (`error`); the two
inner `try/except` blocks turn an exception into `value = None`. -/

structure GroupMode where
  mode : String
  redisKey : String
deriving DecidableEq, Repr

inductive RedisLookup where
  | hash (key field : String)
  | flat (key : String)
deriving DecidableEq, Repr

inductive GroupAction where
  | startGroup (g : String)
  | stopProfiles (names : List String)
  | noAction
deriving DecidableEq, Repr

/-- `redis_key.split(":", 1)` dispatch: hash-field lookup when the key
contains a separator, flat lookup otherwise. -/
def redisKeyParse (k : String) : RedisLookup :=
  if k.data.contains ':' then
    .hash ⟨k.data.takeWhile (fun c => c != ':')⟩
      ⟨(k.data.dropWhile (fun c => c != ':')).drop 1⟩
  else .flat k

/-- The value the cycle works with: a raised lookup exception becomes
`None`. -/
def redisValue (rk : String) (lookup : RedisLookup → Except Unit (Option String)) :
    Option String :=
  match lookup (redisKeyParse rk) with
  | .ok v => v
  | .error _ => none

/-- `should_run = (value == "1")`. -/
def redisShouldRun (rk : String) (lookup : RedisLookup → Except Unit (Option String)) : Bool :=
  redisValue rk lookup == some "1"

/-- `running_count` of the group: profiles of the group whose recorded
process polls as alive. -/
def groupAliveCount (profs : List Profile) (procs : List (String × Handle))
    (group : String) : Nat :=
  ((profs.filter (fun p => pyStrip p.group = group)).filter
    (fun p => aliveHandle procs p.name)).length

/-- One reconciler cycle for one group: the `mode`/key guards, desired-state
resolution and the start/stop decision of `_redis_monitor`. -/
def redisCycleGroup (group : String) (gm : GroupMode)
    (lookup : RedisLookup → Except Unit (Option String))
    (profs : List Profile) (procs : List (String × Handle)) : GroupAction :=
  if gm.mode ≠ "redis" then .noAction
  else
    let rk := pyStrip gm.redisKey
    if rk = "" then .noAction
    else
      let shouldRun := redisShouldRun rk lookup
      let isRunning := decide (0 < groupAliveCount profs procs group)
      if shouldRun && !isRunning then .startGroup group
      else if !shouldRun && isRunning then
        .stopProfiles ((profs.filter (fun p => pyStrip p.group = group)).map Profile.name)
      else .noAction

/-! ## Persistence (`load_profiles` / `save_profiles`)

JSON documents as decoded by `json.load`: numbers are restricted to
integers (the configuration fields are integral; float handling is outside
this model).  Objects are association lists; `json.load` never produces
duplicate keys. -/

inductive Json where
  | null
  | bool (b : Bool)
  | num (n : Int)
  | str (s : String)
  | arr (xs : List Json)
  | obj (fields : List (String × Json))
deriving Repr

/-- Python truthiness of a JSON value. -/
def pyTruthy : Json → Bool
  | .null => false
  | .bool b => b
  | .num n => decide (n ≠ 0)
  | .str s => decide (s ≠ "")
  | .arr xs => !xs.isEmpty
  | .obj fs => !fs.isEmpty

/-- Python `a or b`. -/
def pyOr (a b : Json) : Json := if pyTruthy a then a else b

mutual

/-- Python `repr`/`str` text of a value; the exact text of composite values
matters to no theorem below (string escaping inside reprs is not modelled).
-/
def pyRepr : Json → String
  | .null => "None"
  | .bool true => "True"
  | .bool false => "False"
  | .num n => toString n
  | .str s => "\x27" ++ s ++ "\x27"
  | .arr xs => "[" ++ pyReprList xs ++ "]"
  | .obj fs => "\x7b" ++ pyReprFields fs ++ "\x7d"

def pyReprList : List Json → String
  | [] => ""
  | [x] => pyRepr x
  | x :: y :: xs => pyRepr x ++ ", " ++ pyReprList (y :: xs)

def pyReprFields : List (String × Json) → String
  | [] => ""
  | [(k, v)] => "\x27" ++ k ++ "\x27: " ++ pyRepr v
  | (k, v) :: f :: fs => "\x27" ++ k ++ "\x27: " ++ pyRepr v ++ ", " ++ pyReprFields (f :: fs)

end

/-- Python `str(x)` on a JSON value. -/
def pyStrJ : Json → String
  | .str s => s
  | j => pyRepr j

/-- Decimal digits to a number; fails on any non-digit. -/
def digitsToNat (cs : List Char) : Option Nat :=
  cs.foldl
    (fun acc c =>
      match acc with
      | none => none
      | some n => if c.isDigit then some (n * 10 + (c.toNat - 48)) else none)
    (some 0)

/-- Python `int(x)` on a JSON value: `none` models a raised
`TypeError`/`ValueError`.  Strings are stripped and may carry one sign;
digit-group underscores are not modelled. -/
def pyToInt : Json → Option Int
  | .num n => some n
  | .bool b => some (if b then 1 else 0)
  | .str s =>
    let cs := (pyStrip s).data
    match cs with
    | [] => none
    | c :: rest =>
      if c = '-' then
        match rest with
        | [] => none
        | _itm => (digitsToNat rest).map (fun n => -(n : Int))
      else if c = '+' then
        match rest with
        | [] => none
        | _itm => (digitsToNat rest).map (fun n => (n : Int))
      else (digitsToNat cs).map (fun n => (n : Int))
  | _itm => none

/-- Field lookup on an object document. -/
def jget (k : String) : Json → Option Json
  | .obj fs => fs.lookup k
  | _itm => none

/-- `d.setdefault(k, v)`. -/
def jsetdefault (k : String) (v : Json) (fs : List (String × Json)) :
    List (String × Json) :=
  if (fs.lookup k).isSome then fs else fs ++ [(k, v)]

/-- `raw.get(k, d)`. -/
def rawGet (raw : List (String × Json)) (k : String) (d : Json) : Json :=
  (raw.lookup k).getD d

/-- The `try: p[k] = int(raw.get(k, d) or d) except Exception: p[k] = d`
pattern (the same constant is the `get` default and the `except` fallback
for all four integer fields). -/
def coerceIntField (raw : List (String × Json)) (k : String) (d : Int) : Int :=
  (pyToInt (pyOr (rawGet raw k (.num d)) (.num d))).getD d

/-- `str(raw.get(k, "")).strip()`. -/
def strField (raw : List (String × Json)) (k : String) : String :=
  pyStrip (pyStrJ (rawGet raw k (.str "")))

/-- The per-profile normalization loop body of
`gui_launcher_simple.load_profiles`: builds a fresh dict with exactly these
eleven keys, in assignment order. -/
def normalizeProfile (raw : List (String × Json)) : List (String × Json) :=
  [("name",
      pyOr (rawGet raw "name" .null)
        (pyOr (rawGet raw "value" .null)
          (pyOr (rawGet raw "path" .null) (.str "Unnamed")))),
   ("group", .str (strField raw "group")),
   ("order", .num (coerceIntField raw "order" 0)),
   ("path", .str (strField raw "path")),
   ("args", .str (strField raw "args")),
   ("autoStart", .bool (pyTruthy (rawGet raw "autoStart" (.bool false)))),
   ("autoRestart", .bool (pyTruthy (rawGet raw "autoRestart" (.bool false)))),
   ("waitTarget", .str (strField raw "waitTarget")),
   ("waitTimeout", .num (coerceIntField raw "waitTimeout" 0)),
   ("waitInterval", .num (coerceIntField raw "waitInterval" 2)),
   ("postLaunchDelay", .num (coerceIntField raw "postLaunchDelay" 0))]

/-- `for raw in data.get("profiles", []): if not isinstance(raw, dict):
continue; ... normalized.append(p)`. -/
def normalizeList (xs : List Json) : List Json :=
  xs.filterMap fun raw =>
    match raw with
    | .obj fs => some (.obj (normalizeProfile fs))
    | _itm => none

/-- What `load_profiles` starts from: a missing file, a `json.load` failure,
or the decoded document. -/
inductive LoadInput where
  | missing
  | parseError
  | parsed (j : Json)

def defaultDoc : Json := .obj [("profiles", .arr [])]

/-- `gui_launcher_simple.load_profiles`.  Iterating a non-list `profiles`
value follows Python: strings iterate into characters and dicts into keys
(none of which are dicts, so normalization yields `[]`), while non-iterable
values raise a `TypeError` that the surrounding `except` turns into the
default document. -/
def load_profiles_simple : LoadInput → Json
  | .missing => defaultDoc
  | .parseError => defaultDoc
  | .parsed d =>
    match d with
    | .obj fields0 =>
      let fields := jsetdefault "profiles" (.arr []) fields0
      match fields.lookup "profiles" with
      | some (.arr xs) => .obj (lset "profiles" (.arr (normalizeList xs)) fields)
      | some (.str _has) => .obj (lset "profiles" (.arr []) fields)
      | some (.obj _has) => .obj (lset "profiles" (.arr []) fields)
      | _itm => defaultDoc
    | _itm => defaultDoc

/-- `save_profiles(data)`: `data = data or {"profiles": []}` then
`data.setdefault("profiles", [])` then `json.dump(data, f)`.  The result is
the document written to disk; `none` models the `setdefault` raising on a
truthy non-dict argument (surfaced to the caller as a save failure). -/
def save_profiles_model (d : Json) : Option Json :=
  let d2 := if pyTruthy d then d else defaultDoc
  match d2 with
  | .obj fs => some (.obj (jsetdefault "profiles" (.arr []) fs))
  | _itm => none

/-- The round trip of claim C7: load the persisted document, then save. -/
def saveAfterLoad (inp : LoadInput) : Option Json :=
  save_profiles_model (load_profiles_simple inp)

/-- The i-th entry of the profile list of the document. -/
def jprofile (d : Json) (i : Nat) : Option Json :=
  match jget "profiles" d with
  | some (.arr xs) => xs[i]?
  | _itm => none

/-! ## Concrete fixtures used by witnesses and counterexamples -/

/-- The empty registry state of a freshly started simple launcher. -/
def emptyL : LState := ⟨[], [], [], [], [], "Ready"⟩

/-- A profile gated on a connection-refused TCP target (the timeout scenario of the spec). -/
def profGated : Profile :=
  ⟨"P", "", 0, "x.exe", "", false, false, "tcp://localhost:9", 2, 1, 0⟩

/-- A grouped profile with a positive post-launch delay. -/
def profDelayed : Profile := ⟨"A", "g", 1, "x.exe", "", false, false, "", 0, 2, 3⟩

/-- An ungated profile with a zero wait timeout. -/
def profNoWait : Profile := ⟨"W", "", 0, "x.exe", "", false, false, "http://localhost:1", 0, 2, 0⟩

/-! ## C2: zero total timeout and the two connectivity waiters -/

/-- C2 counterexample: the claim that "the Connectivity Waiter called with a
total timeout of 0 returns true immediately without performing any
reachability probe" fails on `launcher.wait_for_connectivity`: with
`total_timeout = 0` that waiter probes (first conjunct: one probe was
performed before returning true), and with an unreachable target it never
returns at all (second conjunct: still looping after 50 iterations). -/
theorem launcher_wait_zero_timeout_probes :
    wfcLauncher (fun _itm => true) 0 1 (fun _itm => false) 1 = some (true, 1) ∧
    wfcLauncher (fun _itm => false) 0 1 (fun _itm => false) 50 = none := by
  decide

/-- C2 (amended): in `gui_launcher_simple.py` the waiter short-circuits on a
zero (or negative) total timeout, returning true with no probe performed,
and consequently `_start_profile` of that variant performs no reachability
probe for a profile with `waitTimeout = 0`. -/
theorem simple_wait_zero_timeout_no_probe :
    (∀ target interval probe,
      wait_for_connectivity_simple target 0 interval probe = (true, 0)) ∧
    (∀ st prof probe spawn, prof.waitTimeout = 0 →
      (startProfileSimple st prof probe spawn).probes = 0) := by
  constructor
  · intro target interval probe
    simp [wait_for_connectivity_simple]
  · intro st prof probe spawn h0
    by_cases hp : pyStrip prof.path = ""
    · simp [startProfileSimple, hp]
    · by_cases ha : aliveHandle st.processes prof.name = true
      · simp [startProfileSimple, hp, ha]
      · by_cases hl : prof.name ∈ st.launching
        · simp [startProfileSimple, hp, ha, hl]
        · by_cases hw : pyStrip prof.waitTarget = ""
          · cases spawn <;> simp [startProfileSimple, hp, ha, hl, hw, spawnStep]
          · have hwc : wait_for_connectivity_simple (pyStrip prof.waitTarget)
                prof.waitTimeout prof.waitInterval probe = (true, 0) := by
              rw [h0]
              simp [wait_for_connectivity_simple]
            cases spawn <;>
              simp [startProfileSimple, hp, ha, hl, hw, hwc, spawnStep]

/-- Witness for the C2 amended theorem at a concrete profile with
`waitTimeout = 0`. -/
theorem simple_wait_zero_timeout_no_probe_witness :
    (startProfileSimple emptyL profNoWait (fun _itm => true) (some ⟨1, true⟩)).probes = 0 :=
  simple_wait_zero_timeout_no_probe.2 emptyL profNoWait (fun _itm => true) (some ⟨1, true⟩) rfl

/-! ## C8: http(s) reachability probing -/

/-- C8 counterexample: the claim that for http(s) targets "the Reachability
Prober issues a minimal HEAD-equivalent request and reports reachable
exactly when the response status is below 500" fails on `launcher._can_reach`:
for a service whose port accepts TCP connections but whose HTTP answer would
be a 503, that prober reports reachable even though the status is not below
500 (no HTTP request is ever made). -/
theorem launcher_http_probe_ignores_status :
    canReachHttpLauncher true ⟨true, .httpError 503⟩ = true ∧
    specReachableBelow500 (.httpError 503) = false := by
  decide

/-- C8 (amended): `_can_reach_http` in `gui_launcher_simple.py` issues the
HEAD request and, on every outcome urllib can deliver, reports reachable
exactly when the status is below 500 (client errors included) and
unreachable on transport errors; the `launcher.py` prober instead answers
http(s) targets with a bare TCP connect, reachable iff the connect
succeeds, independent of any HTTP status. -/
theorem http_probe_reachability :
    (∀ o : HttpOutcome, UrllibDelivered o →
      canReachHttpSimple o = specReachableBelow500 o) ∧
    (canReachHttpSimple .transportErr = false) ∧
    (∀ s : HttpServiceState, canReachHttpLauncher true s = s.tcpAccepts) := by
  refine ⟨?_, rfl, fun s => rfl⟩
  intro o ho
  cases o with
  | transportErr => rfl
  | response s =>
    obtain ⟨h1, h2⟩ := ho
    have h3 : s < 500 := by omega
    simp [canReachHttpSimple, specReachableBelow500, h1, h2, h3]
  | httpError c =>
    have h2 : 300 ≤ c := ho
    simp only [canReachHttpSimple, specReachableBelow500, decide_eq_decide]
    omega

/-- Witness for the C8 amended theorem: a 404 client error counts as
reachable for the simple prober. -/
theorem http_probe_reachability_witness :
    canReachHttpSimple (.httpError 404) = specReachableBelow500 (.httpError 404) :=
  http_probe_reachability.1 (.httpError 404) (by decide : (300 : Nat) ≤ 404)

/-! ## C3: connectivity gating inside `_start_profile` -/

/-- C3: for every profile with a non-empty `waitTarget` whose start passes
the duplicate-start guards (configured path, no live handle, not already
in flight): if the connectivity wait fails, `_start_profile` leaves
`connState = Offline`, `status = Stopped`, a cleared in-flight flag, an
unchanged process registry and no spawn; if the wait succeeds it sets
`connState = Online` (before any spawn outcome, so for every `spawn`). -/
theorem startProfile_connectivity_outcome (st : LState) (prof : Profile)
    (probe : Nat → Bool) (spawn : Option Handle)
    (hwt : pyStrip prof.waitTarget ≠ "")
    (hpath : pyStrip prof.path ≠ "")
    (halive : aliveHandle st.processes prof.name = false)
    (hlaunch : prof.name ∉ st.launching) :
    ((wait_for_connectivity_simple (pyStrip prof.waitTarget) prof.waitTimeout
        prof.waitInterval probe).1 = false →
      (startProfileSimple st prof probe spawn).state.connStatus.lookup prof.name
          = some "Offline" ∧
      (startProfileSimple st prof probe spawn).state.statusMap.lookup prof.name
          = some "Stopped" ∧
      prof.name ∉ (startProfileSimple st prof probe spawn).state.launching ∧
      (startProfileSimple st prof probe spawn).state.processes = st.processes ∧
      (startProfileSimple st prof probe spawn).spawned = false) ∧
    ((wait_for_connectivity_simple (pyStrip prof.waitTarget) prof.waitTimeout
        prof.waitInterval probe).1 = true →
      (startProfileSimple st prof probe spawn).state.connStatus.lookup prof.name
          = some "Online") := by
  constructor
  · intro hfail
    simp [startProfileSimple, hpath, halive, hlaunch, hwt, hfail, lookup_lset_self,
      List.erase_cons_head]
  · intro hok
    cases spawn <;>
      simp [startProfileSimple, hpath, halive, hlaunch, hwt, hok, spawnStep,
        lookup_lset_self]

/-- Witness for C3 at the timeout scenario of the spec: target
`tcp://localhost:9` never reachable, `waitTimeout = 2`, `waitInterval = 1`. -/
theorem startProfile_connectivity_outcome_witness :
    (startProfileSimple emptyL profGated (fun _itm => false) none).state.connStatus.lookup "P"
        = some "Offline" ∧
    (startProfileSimple emptyL profGated (fun _itm => false) none).state.statusMap.lookup "P"
        = some "Stopped" ∧
    (startProfileSimple emptyL profGated (fun _itm => false) none).state.processes = [] ∧
    (startProfileSimple emptyL profGated (fun _itm => false) none).spawned = false := by
  have h := (startProfile_connectivity_outcome emptyL profGated (fun _itm => false) none
    (by decide) (by decide) (by decide) (by decide)).1 (by decide)
  exact ⟨h.1, h.2.1, h.2.2.2.1, h.2.2.2.2⟩

/-! ## C4: idempotent start -/

/-- C4: in both launcher variants, a start request for a profile whose
registry entry polls alive, or whose in-flight flag is set, is a no-op: the
registry, the status/connectivity maps and the flags are untouched and no
process is spawned. -/
theorem startProfile_idempotent :
    (∀ (st : LState) (prof : Profile) (probe : Nat → Bool) (spawn : Option Handle),
      aliveHandle st.processes prof.name = true ∨ prof.name ∈ st.launching →
      (startProfileSimple st prof probe spawn).state.processes = st.processes ∧
      (startProfileSimple st prof probe spawn).state.statusMap = st.statusMap ∧
      (startProfileSimple st prof probe spawn).state.connStatus = st.connStatus ∧
      (startProfileSimple st prof probe spawn).state.userStop = st.userStop ∧
      (startProfileSimple st prof probe spawn).state.launching = st.launching ∧
      (startProfileSimple st prof probe spawn).spawned = false) ∧
    (∀ (st : PState) (prof : Profile) (probe cancel : Nat → Bool) (fuel : Nat)
        (spawn : Option Handle),
      aliveHandle st.processes prof.name = true ∨ prof.name ∈ st.launching →
      ∃ r : PStartResult, startProfileProfiles st prof probe cancel fuel spawn = some r ∧
        r.state.processes = st.processes ∧ r.state.connStatus = st.connStatus ∧
        r.state.userStop = st.userStop ∧ r.state.launching = st.launching ∧
        r.spawned = false) := by
  constructor
  · intro st prof probe spawn h
    by_cases hp : pyStrip prof.path = ""
    · simp [startProfileSimple, hp]
    · by_cases ha : aliveHandle st.processes prof.name = true
      · simp [startProfileSimple, hp, ha]
      · have hl : prof.name ∈ st.launching := h.resolve_left (by simp [ha])
        simp [startProfileSimple, hp, ha, hl]
  · intro st prof probe cancel fuel spawn h
    by_cases ha : aliveHandle st.processes prof.name = true
    · refine ⟨⟨st, false, true⟩, ?_, rfl, rfl, rfl, rfl, rfl⟩
      simp [startProfileProfiles, ha]
    · have hl : prof.name ∈ st.launching := h.resolve_left (by simp [ha])
      refine ⟨⟨st, false, false⟩, ?_, rfl, rfl, rfl, rfl, rfl⟩
      simp [startProfileProfiles, ha, hl]

/-- A registry in which profile `W` is recorded with a live handle. -/
def runningL : LState := ⟨[("W", ⟨1, true⟩)], [("W", "Running")], [], [], [], "Ready"⟩

/-- Witness for C4: starting the already-running profile `W` changes
nothing and spawns nothing. -/
theorem startProfile_idempotent_witness :
    (startProfileSimple runningL profNoWait (fun _itm => false) none).state.processes
        = runningL.processes ∧
    (startProfileSimple runningL profNoWait (fun _itm => false) none).state.statusMap
        = runningL.statusMap ∧
    (startProfileSimple runningL profNoWait (fun _itm => false) none).spawned = false := by
  have h := startProfile_idempotent.1 runningL profNoWait (fun _itm => false) none
    (Or.inl (by decide))
  exact ⟨h.1, h.2.1, h.2.2.2.2.2⟩

/-! ## C10: a dead recorded handle does not block a restart -/

/-- C10: the duplicate-start guard triggers only on a handle that polls
alive; with a recorded handle that has exited, `_start_profile` proceeds,
spawns and replaces the stale registry entry with the new handle. -/
theorem startProfile_replaces_dead_handle (st : LState) (prof : Profile)
    (probe : Nat → Bool) (h0 hNew : Handle)
    (hpath : pyStrip prof.path ≠ "")
    (hrec : st.processes.lookup prof.name = some h0)
    (hdead : h0.alive = false)
    (hlaunch : prof.name ∉ st.launching)
    (hwt : pyStrip prof.waitTarget = "") :
    (startProfileSimple st prof probe (some hNew)).spawned = true ∧
    (startProfileSimple st prof probe (some hNew)).state.processes.lookup prof.name
        = some hNew ∧
    (startProfileSimple st prof probe (some hNew)).state.statusMap.lookup prof.name
        = some "Running" := by
  have halive : aliveHandle st.processes prof.name = false := by
    simp [aliveHandle, hrec, hdead]
  simp [startProfileSimple, hpath, halive, hlaunch, hwt, spawnStep, lookup_lset_self]

/-- A registry in which profile `W` is recorded with an exited handle. -/
def staleL : LState := ⟨[("W", ⟨1, false⟩)], [("W", "Stopped")], [], [], [], "Ready"⟩

/-- An ungated profile (no `waitTarget`). -/
def profPlain : Profile := ⟨"W", "", 0, "x.exe", "", false, false, "", 0, 2, 0⟩

/-- Witness for C10: restarting `W` after its process exited records the
fresh handle. -/
theorem startProfile_replaces_dead_handle_witness :
    (startProfileSimple staleL profPlain (fun _itm => false) (some ⟨2, true⟩)).spawned = true ∧
    (startProfileSimple staleL profPlain (fun _itm => false) (some ⟨2, true⟩)).state.processes.lookup "W"
        = some ⟨2, true⟩ :=
  ⟨(startProfile_replaces_dead_handle staleL profPlain (fun _itm => false) ⟨1, false⟩ ⟨2, true⟩
      (by decide) (by decide) rfl (by decide) (by decide)).1,
   (startProfile_replaces_dead_handle staleL profPlain (fun _itm => false) ⟨1, false⟩ ⟨2, true⟩
      (by decide) (by decide) rfl (by decide) (by decide)).2.1⟩

/-! ## C1: the post-launch delay in the launch sequencer -/

/-- The per-profile event block emitted by one iteration of the sequencer
loop, as an append. -/
theorem startAllWorker_cons_eq (p : Profile) (rest : List Profile) :
    startAllWorker (p :: rest) =
      (SeqEvent.start p.name ::
        SeqEvent.waitClear p.name (max 10 (p.waitTimeout + 10)) ::
        (if pyStrip p.group ≠ "" ∧ 0 < p.postLaunchDelay then
          [SeqEvent.sleep p.postLaunchDelay]
        else [])) ++ startAllWorker rest := by
  by_cases h : pyStrip p.group ≠ "" ∧ 0 < p.postLaunchDelay <;>
    simp [startAllWorker, h]

theorem startAllWorker_ne_nil (p : Profile) (rest : List Profile) :
    startAllWorker (p :: rest) ≠ [] := by
  rw [startAllWorker_cons_eq]
  simp

/-- If the last profile of the (sorted) sequence is grouped with a positive
delay, the final event of the sequencer is its post-launch sleep. -/
theorem startAllWorker_getLast (l : List Profile) (p : Profile)
    (hl : l.getLast? = some p) (hg : pyStrip p.group ≠ "")
    (hd : 0 < p.postLaunchDelay) :
    (startAllWorker l).getLast? = some (.sleep p.postLaunchDelay) := by
  induction l with
  | nil => simp at hl
  | cons q rest ih =>
    cases rest with
    | nil =>
      have hq : q = p := by simpa using hl
      subst hq
      simp [startAllWorker, hg, hd]
    | cons q2 rest2 =>
      have hl2 : (q2 :: rest2).getLast? = some p := by
        rwa [List.getLast?_cons_cons] at hl
      rw [startAllWorker_cons_eq,
        List.getLast?_append_of_ne_nil _ (startAllWorker_ne_nil q2 rest2)]
      exact ih hl2

/-- Every grouped profile with a positive delay has its start immediately
followed (after the bounded in-flight wait) by its post-launch sleep. -/
theorem startAllWorker_start_sleep (l : List Profile) (q : Profile)
    (hm : q ∈ l) (hg : pyStrip q.group ≠ "") (hd : 0 < q.postLaunchDelay) :
    ∃ i, (startAllWorker l)[i]? = some (.start q.name) ∧
         (startAllWorker l)[i + 2]? = some (.sleep q.postLaunchDelay) := by
  induction l with
  | nil => simp at hm
  | cons p rest ih =>
    rcases List.mem_cons.mp hm with hq | hq
    · subst hq
      exact ⟨0, by simp [startAllWorker], by simp [startAllWorker, hg, hd]⟩
    · obtain ⟨i, h1, h2⟩ := ih hq
      by_cases hc : pyStrip p.group ≠ "" ∧ 0 < p.postLaunchDelay
      · refine ⟨i + 3, ?_, ?_⟩
        · simpa [startAllWorker, hc, List.getElem?_cons_succ] using h1
        · have : i + 3 + 2 = (i + 2) + 3 := by omega
          rw [this]
          simpa [startAllWorker, hc, List.getElem?_cons_succ] using h2
      · refine ⟨i + 2, ?_, ?_⟩
        · simpa [startAllWorker, hc, List.getElem?_cons_succ] using h1
        · have : i + 2 + 2 = (i + 2) + 2 := by omega
          rw [this]
          simpa [startAllWorker, hc, List.getElem?_cons_succ] using h2

/-- C1 counterexample: the claim that the post-launch delay "is never
applied after the final profile of the sequence" fails: for the one-element
sequence `[A(group=g, order=1, postLaunchDelay=3)]` the last event of the sequencer is the 3-second sleep, i.e. it sleeps after the final profile. -/
theorem startMany_sleeps_after_final_profile :
    (sortProfs [profDelayed]).getLast? = some profDelayed ∧
    pyStrip profDelayed.group ≠ "" ∧
    profDelayed.postLaunchDelay = 3 ∧
    (startManyTrace [profDelayed]).getLast? = some (.sleep 3) := by
  decide

/-- C1 (amended): in every `startMany` sequence, after starting a profile
that belongs to a non-empty group and has `postLaunchDelay > 0` the
sequencer sleeps that many seconds before proceeding — including after the
final profile of the sequence, which the loop does not special-case. -/
theorem startMany_post_launch_delay (profs : List Profile) :
    (∀ q ∈ sortProfs profs, pyStrip q.group ≠ "" → 0 < q.postLaunchDelay →
      ∃ i, (startManyTrace profs)[i]? = some (.start q.name) ∧
           (startManyTrace profs)[i + 2]? = some (.sleep q.postLaunchDelay)) ∧
    (∀ p, (sortProfs profs).getLast? = some p → pyStrip p.group ≠ "" →
      0 < p.postLaunchDelay →
      (startManyTrace profs).getLast? = some (.sleep p.postLaunchDelay)) :=
  ⟨fun q hm hg hd => startAllWorker_start_sleep (sortProfs profs) q hm hg hd,
   fun p hl hg hd => startAllWorker_getLast (sortProfs profs) p hl hg hd⟩

/-- Witness for C1 at the one-profile group sequence. -/
theorem startMany_post_launch_delay_witness :
    ∃ i, (startManyTrace [profDelayed])[i]? = some (.start "A") ∧
         (startManyTrace [profDelayed])[i + 2]? = some (.sleep 3) :=
  (startMany_post_launch_delay [profDelayed]).1 profDelayed (by decide) (by decide)
    (by decide)

/-! ## C5: crash monitor restart conditions and cooldown -/

/-- Characterization of the per-profile monitor check of the simple variant. -/
theorem procMonitorCheckSimple_spec (a : Bool) (s : MonState) (now : ℚ) :
    (procMonitorCheckSimple a s now).1 = true ↔
      a = true ∧ s.inFlight = false ∧ s.userStopped = false ∧
      (∃ h, s.handle = some h ∧ h.alive = false) ∧ 3 ≤ now - s.lastRestart := by
  obtain ⟨f, u, hd, lr⟩ := s
  simp only [procMonitorCheckSimple]
  cases a <;> cases f <;> cases u <;> simp
  cases hd with
  | none => simp
  | some h =>
    by_cases hal : h.alive = true
    · simp [hal]
    · by_cases ht : now - lr < 3
      · simp [hal, ht, not_le.mpr ht]
      · simp [hal, ht, not_lt.mp ht]

/-- A positive monitor check also forces the restart conditions in the
profiles variant (which adds a non-empty-path guard in front). -/
theorem procMonitorCheckProfiles_implies (a : Bool) (path : String) (s : MonState)
    (now : ℚ) (hr : (procMonitorCheckProfiles a path s now).1 = true) :
    a = true ∧ s.inFlight = false ∧ s.userStopped = false ∧
      (∃ h, s.handle = some h ∧ h.alive = false) ∧ 3 ≤ now - s.lastRestart := by
  rw [← procMonitorCheckSimple_spec]
  by_cases hp : pyStrip path = ""
  · cases a <;> simp [procMonitorCheckProfiles, hp] at hr
  · cases a
    · simp [procMonitorCheckProfiles] at hr
    · simpa [procMonitorCheckProfiles, procMonitorCheckSimple, hp] using hr

/-- A monitor check that issues no restart leaves `_last_restart`
unchanged. -/
theorem procMonitorCheckSimple_snd_false (a : Bool) (s : MonState) (now : ℚ)
    (hr : (procMonitorCheckSimple a s now).1 = false) :
    (procMonitorCheckSimple a s now).2 = s.lastRestart := by
  obtain ⟨f, u, hd, lr⟩ := s
  simp only [procMonitorCheckSimple] at hr ⊢
  cases a <;> cases f <;> cases u <;> simp_all
  cases hd with
  | none => simp
  | some h =>
    by_cases hal : h.alive = true
    · simp [hal]
    · by_cases ht : now - lr < 3
      · simp [hal, ht]
      · simp [hal, ht] at hr

/-- A monitor check that issues a restart records `now` and can only fire
at least three seconds after the previous record. -/
theorem procMonitorCheckSimple_snd_true (a : Bool) (s : MonState) (now : ℚ)
    (hr : (procMonitorCheckSimple a s now).1 = true) :
    (procMonitorCheckSimple a s now).2 = now ∧ s.lastRestart + 3 ≤ now := by
  obtain ⟨ha, hf, hu, ⟨h, hh, hal⟩, ht⟩ := (procMonitorCheckSimple_spec a s now).mp hr
  obtain ⟨f, u, hd, lr⟩ := s
  simp only at ha hf hu hh ht
  subst ha hf hu hh
  have hlt : ¬ now - lr < 3 := not_lt.mpr ht
  refine ⟨?_, by linarith⟩
  simp [procMonitorCheckSimple, hal, hlt]

/-- Restart times produced by successive monitor cycles are bounded below
by the previous record plus the cooldown, and pairwise at least three
seconds apart. -/
theorem monitorRunSimple_bounds (h : Handle) (ts : List ℚ) :
    ∀ last : ℚ, (∀ x ∈ monitorRunSimple h last ts, last + 3 ≤ x) ∧
      (monitorRunSimple h last ts).Pairwise (fun a b => a + 3 ≤ b) := by
  induction ts with
  | nil => intro last; simp [monitorRunSimple]
  | cons t ts ih =>
    intro last
    by_cases hr : (procMonitorCheckSimple true ⟨false, false, some h, last⟩ t).1 = true
    · obtain ⟨hsnd, hsep⟩ := procMonitorCheckSimple_snd_true _ _ _ hr
      have hrun : monitorRunSimple h last (t :: ts) = t :: monitorRunSimple h t ts := by
        simp [monitorRunSimple, hr, hsnd]
      obtain ⟨hb, hp⟩ := ih t
      constructor
      · intro x hx
        rw [hrun] at hx
        rcases List.mem_cons.mp hx with hx | hx
        · subst hx
          exact hsep
        · have := hb x hx
          linarith
      · rw [hrun]
        refine List.pairwise_cons.mpr ⟨fun x hx => ?_, hp⟩
        have := hb x hx
        linarith
    · have hr2 : (procMonitorCheckSimple true ⟨false, false, some h, last⟩ t).1 = false :=
        Bool.not_eq_true _ |>.mp hr
      have hsnd := procMonitorCheckSimple_snd_false _ _ _ hr2
      have hrun : monitorRunSimple h last (t :: ts) = monitorRunSimple h last ts := by
        simp [monitorRunSimple, hr2, hsnd]
      rw [hrun]
      exact ih last

/-- C5: a crash-monitor cycle restarts an `autoRestart` profile exactly when
it is not in flight, not user-stopped, its recorded handle polls as exited,
and at least 3 seconds have elapsed since the last recorded restart (the
profiles variant restarts only under the same conditions); consequently the
restart times of a repeatedly crashing profile are pairwise at least three
seconds apart. -/
theorem crash_monitor_restart_policy :
    (∀ (a : Bool) (s : MonState) (now : ℚ),
      (procMonitorCheckSimple a s now).1 = true ↔
        a = true ∧ s.inFlight = false ∧ s.userStopped = false ∧
        (∃ h, s.handle = some h ∧ h.alive = false) ∧ 3 ≤ now - s.lastRestart) ∧
    (∀ (a : Bool) (path : String) (s : MonState) (now : ℚ),
      (procMonitorCheckProfiles a path s now).1 = true →
        a = true ∧ s.inFlight = false ∧ s.userStopped = false ∧
        (∃ h, s.handle = some h ∧ h.alive = false) ∧ 3 ≤ now - s.lastRestart) ∧
    (∀ (h : Handle) (last : ℚ) (ts : List ℚ),
      (monitorRunSimple h last ts).Pairwise (fun t1 t2 => t1 + 3 ≤ t2)) :=
  ⟨procMonitorCheckSimple_spec,
   procMonitorCheckProfiles_implies,
   fun h last ts => (monitorRunSimple_bounds h ts last).2⟩

/-- Witness for C5: a dead handle, clear flags and a five-second gap fire a
restart. -/
theorem crash_monitor_restart_policy_witness :
    (procMonitorCheckSimple true ⟨false, false, some ⟨1, false⟩, 0⟩ 5).1 = true :=
  (crash_monitor_restart_policy.1 true ⟨false, false, some ⟨1, false⟩, 0⟩ 5).mpr
    ⟨rfl, rfl, rfl, ⟨⟨1, false⟩, rfl, rfl⟩, by norm_num⟩

/-! ## C6: the external trigger reconciler -/

/-- C6: for a group in redis mode with a non-empty key, one reconciler
cycle resolves desired = true exactly when the lookup yields the literal
string "1" (any lookup error yields desired = false), starts the group
exactly when desired holds and no group profile has a live handle, stops
every profile of the group exactly when desired fails and some profile has
a live handle, and does nothing when desired already matches actual. -/
theorem redis_reconciler_cycle (group : String) (gm : GroupMode)
    (lookup : RedisLookup → Except Unit (Option String))
    (profs : List Profile) (procs : List (String × Handle))
    (hmode : gm.mode = "redis") (hkey : pyStrip gm.redisKey ≠ "") :
    (redisShouldRun (pyStrip gm.redisKey) lookup = true ↔
      lookup (redisKeyParse (pyStrip gm.redisKey)) = .ok (some "1")) ∧
    (∀ e, lookup (redisKeyParse (pyStrip gm.redisKey)) = .error e →
      redisShouldRun (pyStrip gm.redisKey) lookup = false) ∧
    (redisCycleGroup group gm lookup profs procs = .startGroup group ↔
      redisShouldRun (pyStrip gm.redisKey) lookup = true ∧
      groupAliveCount profs procs group = 0) ∧
    (redisCycleGroup group gm lookup profs procs =
        .stopProfiles ((profs.filter (fun p => pyStrip p.group = group)).map Profile.name) ↔
      redisShouldRun (pyStrip gm.redisKey) lookup = false ∧
      0 < groupAliveCount profs procs group) ∧
    ((redisShouldRun (pyStrip gm.redisKey) lookup = true ↔
        0 < groupAliveCount profs procs group) →
      redisCycleGroup group gm lookup profs procs = .noAction) := by
  refine ⟨?_, ?_, ?_, ?_, ?_⟩
  · unfold redisShouldRun redisValue
    cases hv : lookup (redisKeyParse (pyStrip gm.redisKey)) with
    | ok v => cases v <;> simp_all
    | error e => simp_all
  · intro e he
    unfold redisShouldRun redisValue
    rw [he]
    rfl
  · by_cases hs : redisShouldRun (pyStrip gm.redisKey) lookup = true <;>
      by_cases hrun : 0 < groupAliveCount profs procs group <;>
      simp [redisCycleGroup, hmode, hkey, hs, hrun] <;>
      omega
  · by_cases hs : redisShouldRun (pyStrip gm.redisKey) lookup = true <;>
      by_cases hrun : 0 < groupAliveCount profs procs group <;>
      simp [redisCycleGroup, hmode, hkey, hs, hrun]
  · intro hiff
    by_cases hs : redisShouldRun (pyStrip gm.redisKey) lookup = true
    · have hrun : 0 < groupAliveCount profs procs group := hiff.mp hs
      simp [redisCycleGroup, hmode, hkey, hs, hrun]
    · have hrun : ¬ 0 < groupAliveCount profs procs group := fun hc => hs (hiff.mpr hc)
      simp [redisCycleGroup, hmode, hkey, hs, hrun]

/-- The redis-driven group of the scenario in the spec. -/
def gmNav : GroupMode := ⟨"redis", "launcher:nav"⟩

/-- A profile of group `nav`. -/
def profNav : Profile := ⟨"N", "nav", 1, "x.exe", "", false, false, "", 0, 2, 0⟩

/-- Witness for C6: key `launcher:nav` holding "1" with no live handle
starts the group. -/
theorem redis_reconciler_cycle_witness :
    redisCycleGroup "nav" gmNav (fun _itm => .ok (some "1")) [profNav] []
      = .startGroup "nav" :=
  (redis_reconciler_cycle "nav" gmNav (fun _itm => .ok (some "1")) [profNav] []
    (by decide) (by decide)).2.2.1.mpr ⟨by decide, by decide⟩

/-! ## C7: load/save round trip -/

theorem lookup_append_single_ne {α : Type} {k k2 : String} (h : k2 ≠ k) (v : α)
    (fs : List (String × α)) : (fs ++ [(k, v)]).lookup k2 = fs.lookup k2 := by
  have hb : (k2 == k) = false := beq_eq_false_iff_ne.mpr h
  induction fs with
  | nil => simp [List.lookup, hb]
  | cons hd tl ih =>
    obtain ⟨k3, v3⟩ := hd
    by_cases h3 : k2 = k3
    · subst h3
      simp [List.lookup]
    · have hb3 : (k2 == k3) = false := beq_eq_false_iff_ne.mpr h3
      simp [List.lookup, hb3, ih]

theorem lookup_append_single_self {α : Type} (k : String) (v : α)
    (fs : List (String × α)) (hnone : fs.lookup k = none) :
    (fs ++ [(k, v)]).lookup k = some v := by
  induction fs with
  | nil => simp [List.lookup]
  | cons hd tl ih =>
    obtain ⟨k3, v3⟩ := hd
    by_cases h3 : k = k3
    · subst h3
      have : List.lookup k ((k, v3) :: tl) = some v3 := by
        simp [List.lookup]
      rw [this] at hnone
      exact Option.noConfusion hnone
    · have hb3 : (k == k3) = false := beq_eq_false_iff_ne.mpr h3
      simp only [List.cons_append, List.lookup, hb3] at hnone ⊢
      exact ih hnone

theorem lset_ne_nil {α : Type} (k : String) (v : α) (m : List (String × α)) :
    lset k v m ≠ [] := by
  cases m with
  | nil => simp [lset]
  | cons hd tl =>
    obtain ⟨k2, v2⟩ := hd
    by_cases h : k2 = k <;> simp [lset, h]

/-- The field list of the legacy-variant document used as the C7 input: a
top-level unknown field and a profile carrying the
`monitor` field of the other engine variant. -/
def legacyFields : List (String × Json) :=
  [("legacy", .num 7),
   ("profiles", .arr [.obj [("name", .str "A"), ("path", .str "x.exe"), ("monitor", .num 2)]])]

def legacyDoc : Json := .obj legacyFields

/-- C7 counterexample: the claim that load → save "preserves all fields,
including fields belonging to a different engine variant" fails on
`gui_launcher_simple`: the input profile carries `monitor = 2`, and after
load → save the saved profile no longer has a `monitor` field. -/
theorem load_save_drops_unknown_profile_field :
    (jprofile legacyDoc 0).bind (jget "monitor") = some (.num 2) ∧
    ((saveAfterLoad (.parsed legacyDoc)).bind (jprofile · 0)).bind (jget "monitor")
      = none :=
  ⟨rfl, rfl⟩

/-- C7 (amended): for a well-formed persisted document (its `profiles`
entry, if present, is a list), load → save preserves every top-level field
other than `profiles` — including unknown ones — and saving after loading
adds nothing further; but each profile is rewritten to exactly the eleven
normalized keys, so unrecognized per-profile fields (such as those of the
other engine variant) are dropped rather than preserved. -/
theorem load_save_roundtrip_shape (fields : List (String × Json)) (k : String)
    (hk : k ≠ "profiles")
    (hp : fields.lookup "profiles" = none ∨
      ∃ xs, fields.lookup "profiles" = some (.arr xs)) :
    jget k (load_profiles_simple (.parsed (.obj fields))) = jget k (.obj fields) ∧
    saveAfterLoad (.parsed (.obj fields))
      = some (load_profiles_simple (.parsed (.obj fields))) ∧
    (∀ profsOut, jget "profiles" (load_profiles_simple (.parsed (.obj fields)))
        = some (.arr profsOut) →
      ∀ q ∈ profsOut, ∃ pf, q = .obj pf ∧
        pf.map Prod.fst = ["name", "group", "order", "path", "args", "autoStart",
          "autoRestart", "waitTarget", "waitTimeout", "waitInterval",
          "postLaunchDelay"]) := by
  have hload : ∃ xs, load_profiles_simple (.parsed (.obj fields))
      = .obj (lset "profiles" (.arr (normalizeList xs))
          (jsetdefault "profiles" (.arr []) fields)) := by
    rcases hp with hnone | ⟨xs, hx⟩
    · refine ⟨[], ?_⟩
      have hset : jsetdefault "profiles" (.arr []) fields
          = fields ++ [("profiles", .arr [])] := by
        simp [jsetdefault, hnone]
      have hlook : (fields ++ [("profiles", Json.arr [])]).lookup "profiles"
          = some (.arr []) := lookup_append_single_self _ _ _ hnone
      simp [load_profiles_simple, hset, hlook, normalizeList]
    · refine ⟨xs, ?_⟩
      have hset : jsetdefault "profiles" (.arr []) fields = fields := by
        simp [jsetdefault, hx]
      simp [load_profiles_simple, hset, hx]
  obtain ⟨xs, hl⟩ := hload
  refine ⟨?_, ?_, ?_⟩
  · rw [hl]
    show (lset "profiles" (Json.arr (normalizeList xs))
        (jsetdefault "profiles" (.arr []) fields)).lookup k = fields.lookup k
    rw [lookup_lset_ne hk]
    unfold jsetdefault
    by_cases hs : (fields.lookup "profiles").isSome
    · simp [hs]
    · simp [hs, lookup_append_single_ne hk]
  · rw [saveAfterLoad, hl]
    have hne : lset "profiles" (Json.arr (normalizeList xs))
        (jsetdefault "profiles" (.arr []) fields) ≠ [] := lset_ne_nil _ _ _
    have htr : pyTruthy (.obj (lset "profiles" (Json.arr (normalizeList xs))
        (jsetdefault "profiles" (.arr []) fields))) = true := by
      simp [pyTruthy, hne]
    have hsd : jsetdefault "profiles" (.arr [])
        (lset "profiles" (Json.arr (normalizeList xs))
          (jsetdefault "profiles" (.arr []) fields))
        = lset "profiles" (Json.arr (normalizeList xs))
            (jsetdefault "profiles" (.arr []) fields) := by
      simp [jsetdefault, lookup_lset_self]
    simp [save_profiles_model, htr, hsd]
  · intro profsOut hpo q hq
    rw [hl] at hpo
    have : profsOut = normalizeList xs := by
      have := hpo
      rw [show jget "profiles" (Json.obj (lset "profiles" (Json.arr (normalizeList xs))
          (jsetdefault "profiles" (.arr []) fields)))
          = some (.arr (normalizeList xs)) from by
        simp [jget, lookup_lset_self]] at this
      simpa using this.symm
    subst this
    obtain ⟨raw, _hm, hr⟩ := List.mem_filterMap.mp hq
    cases raw with
    | obj fs =>
      refine ⟨normalizeProfile fs, by simpa using hr.symm, ?_⟩
      simp [normalizeProfile]
    | null => simp at hr
    | bool b => simp at hr
    | num n => simp at hr
    | str sx => simp at hr
    | arr ax => simp at hr

/-- Witness for C7: the unknown top-level field `legacy` survives the load
of the legacy document. -/
theorem load_save_roundtrip_shape_witness :
    jget "legacy" (load_profiles_simple (.parsed legacyDoc)) = some (.num 7) :=
  (load_save_roundtrip_shape legacyFields "legacy" (by decide)
    (Or.inr ⟨_, rfl⟩)).1.trans rfl

/-! ## C9: total, normalizing load -/

/-- The shape guarantee of one normalized profile: exactly the eleven known
keys, with string/integer/boolean values where `load_profiles` coerces
them. -/
def NormalizedShape (q : Json) : Prop :=
  ∃ pf, q = .obj pf ∧
    pf.map Prod.fst = ["name", "group", "order", "path", "args", "autoStart",
      "autoRestart", "waitTarget", "waitTimeout", "waitInterval",
      "postLaunchDelay"] ∧
    (∃ s, pf.lookup "group" = some (.str s)) ∧
    (∃ s, pf.lookup "path" = some (.str s)) ∧
    (∃ s, pf.lookup "args" = some (.str s)) ∧
    (∃ s, pf.lookup "waitTarget" = some (.str s)) ∧
    (∃ n, pf.lookup "order" = some (.num n)) ∧
    (∃ n, pf.lookup "waitTimeout" = some (.num n)) ∧
    (∃ n, pf.lookup "waitInterval" = some (.num n)) ∧
    (∃ n, pf.lookup "postLaunchDelay" = some (.num n)) ∧
    (∃ b, pf.lookup "autoStart" = some (.bool b)) ∧
    (∃ b, pf.lookup "autoRestart" = some (.bool b))

theorem normalizeProfile_shape (fs : List (String × Json)) :
    NormalizedShape (.obj (normalizeProfile fs)) := by
  refine ⟨normalizeProfile fs, rfl, by simp [normalizeProfile], ?_, ?_, ?_, ?_, ?_, ?_,
    ?_, ?_, ?_, ?_⟩ <;> exact ⟨_, rfl⟩

theorem normalizeList_shape (xs : List Json) (q : Json) (hq : q ∈ normalizeList xs) :
    NormalizedShape q := by
  obtain ⟨raw, _hm, hr⟩ := List.mem_filterMap.mp hq
  cases raw with
  | obj fs =>
    have : q = .obj (normalizeProfile fs) := by simpa using hr.symm
    rw [this]
    exact normalizeProfile_shape fs
  | null => simp at hr
  | bool b => simp at hr
  | num n => simp at hr
  | str sx => simp at hr
  | arr ax => simp at hr

/-- C9: on every load input — missing file, parse failure, non-dict
document, non-dict profile entries, malformed field values —
`load_profiles` returns a document whose `profiles` key holds a list, every
element of which is fully normalized (exactly the known keys, with string,
integer and boolean values); missing or falsy `name`/`value`/`path` chains
default the name down to "Unnamed", the four integer fields fall back to
their 0/0/2/0 defaults whenever `int()` would raise, and the two boolean
fields default to false when absent. -/
theorem load_profiles_normalizes :
    (∀ inp : LoadInput, ∃ profs : List Json,
      jget "profiles" (load_profiles_simple inp) = some (.arr profs) ∧
      ∀ q ∈ profs, NormalizedShape q) ∧
    (∀ raw, rawGet raw "name" .null = .null → rawGet raw "value" .null = .null →
      rawGet raw "path" .null = .null →
      (normalizeProfile raw).lookup "name" = some (.str "Unnamed")) ∧
    (∀ raw s, rawGet raw "name" .null = .null → rawGet raw "value" .null = .str s →
      s ≠ "" → (normalizeProfile raw).lookup "name" = some (.str s)) ∧
    (∀ raw v, rawGet raw "order" (.num 0) = v → pyToInt (pyOr v (.num 0)) = none →
      (normalizeProfile raw).lookup "order" = some (.num 0)) ∧
    (∀ raw v, rawGet raw "waitTimeout" (.num 0) = v → pyToInt (pyOr v (.num 0)) = none →
      (normalizeProfile raw).lookup "waitTimeout" = some (.num 0)) ∧
    (∀ raw v, rawGet raw "waitInterval" (.num 2) = v → pyToInt (pyOr v (.num 2)) = none →
      (normalizeProfile raw).lookup "waitInterval" = some (.num 2)) ∧
    (∀ raw v, rawGet raw "postLaunchDelay" (.num 0) = v →
      pyToInt (pyOr v (.num 0)) = none →
      (normalizeProfile raw).lookup "postLaunchDelay" = some (.num 0)) ∧
    (∀ raw, raw.lookup "autoStart" = none →
      (normalizeProfile raw).lookup "autoStart" = some (.bool false)) ∧
    (∀ raw, raw.lookup "autoRestart" = none →
      (normalizeProfile raw).lookup "autoRestart" = some (.bool false)) := by
  refine ⟨?_, ?_, ?_, ?_, ?_, ?_, ?_, ?_, ?_⟩
  · intro inp
    cases inp with
    | missing => exact ⟨[], rfl, by simp⟩
    | parseError => exact ⟨[], rfl, by simp⟩
    | parsed d =>
      cases d with
      | obj fields =>
        cases hv : (jsetdefault "profiles" (.arr []) fields).lookup "profiles" with
        | none =>
          refine ⟨[], ?_, by simp⟩
          simp only [load_profiles_simple, hv]
          rfl
        | some v =>
          cases v with
          | arr xs =>
            refine ⟨normalizeList xs, ?_, fun q hq => normalizeList_shape xs q hq⟩
            simp [load_profiles_simple, hv, jget, lookup_lset_self]
          | str sx =>
            refine ⟨[], ?_, by simp⟩
            simp [load_profiles_simple, hv, jget, lookup_lset_self]
          | obj fx =>
            refine ⟨[], ?_, by simp⟩
            simp [load_profiles_simple, hv, jget, lookup_lset_self]
          | null => exact ⟨[], by simp only [load_profiles_simple, hv]; rfl, by simp⟩
          | bool b => exact ⟨[], by simp only [load_profiles_simple, hv]; rfl, by simp⟩
          | num n => exact ⟨[], by simp only [load_profiles_simple, hv]; rfl, by simp⟩
      | null => exact ⟨[], rfl, by simp⟩
      | bool b => exact ⟨[], rfl, by simp⟩
      | num n => exact ⟨[], rfl, by simp⟩
      | str sx => exact ⟨[], rfl, by simp⟩
      | arr ax => exact ⟨[], rfl, by simp⟩
  · intro raw h1 h2 h3
    have : (normalizeProfile raw).lookup "name"
        = some (pyOr (rawGet raw "name" .null)
            (pyOr (rawGet raw "value" .null)
              (pyOr (rawGet raw "path" .null) (.str "Unnamed")))) := rfl
    rw [this, h1, h2, h3]
    rfl
  · intro raw sv h1 h2 hs
    have : (normalizeProfile raw).lookup "name"
        = some (pyOr (rawGet raw "name" .null)
            (pyOr (rawGet raw "value" .null)
              (pyOr (rawGet raw "path" .null) (.str "Unnamed")))) := rfl
    rw [this, h1, h2]
    simp [pyOr, pyTruthy, hs]
  · intro raw v h1 h2
    have : (normalizeProfile raw).lookup "order"
        = some (.num (coerceIntField raw "order" 0)) := rfl
    rw [this]
    unfold coerceIntField
    rw [h1, h2]
    rfl
  · intro raw v h1 h2
    have : (normalizeProfile raw).lookup "waitTimeout"
        = some (.num (coerceIntField raw "waitTimeout" 0)) := rfl
    rw [this]
    unfold coerceIntField
    rw [h1, h2]
    rfl
  · intro raw v h1 h2
    have : (normalizeProfile raw).lookup "waitInterval"
        = some (.num (coerceIntField raw "waitInterval" 2)) := rfl
    rw [this]
    unfold coerceIntField
    rw [h1, h2]
    rfl
  · intro raw v h1 h2
    have : (normalizeProfile raw).lookup "postLaunchDelay"
        = some (.num (coerceIntField raw "postLaunchDelay" 0)) := rfl
    rw [this]
    unfold coerceIntField
    rw [h1, h2]
    rfl
  · intro raw h1
    have : (normalizeProfile raw).lookup "autoStart"
        = some (.bool (pyTruthy (rawGet raw "autoStart" (.bool false)))) := rfl
    rw [this]
    simp [rawGet, h1, pyTruthy]
  · intro raw h1
    have : (normalizeProfile raw).lookup "autoRestart"
        = some (.bool (pyTruthy (rawGet raw "autoRestart" (.bool false)))) := rfl
    rw [this]
    simp [rawGet, h1, pyTruthy]

/-- Witness for C9: a malformed `order` string falls back to 0. -/
theorem load_profiles_normalizes_witness :
    (normalizeProfile [("order", Json.str "xyz")]).lookup "order" = some (.num 0) :=
  load_profiles_normalizes.2.2.2.1 [("order", Json.str "xyz")] (.str "xyz") rfl rfl

end DualLauncher
